import Mathlib

/-!
# ChatGLM3-6B demo (`llm_demo.cpp`): embedding and properties

The program is a command-line wrapper around the RKLLM runtime.  Its own
behaviour is a sequence of observable actions: writes to the standard streams,
calls into the runtime, file operations and process exit.  The embedding below
turns every function of `llm_demo.cpp` into a Lean function that returns the
list of actions it performs.

Conventions.
* `std::string` / `char*` values are Lean `String`s; where a `std::string` is
  handed over as a `char*`, the C string it denotes (`c_str`) ends at the first
  NUL character.
* `int` values are `Int`; where C arithmetic can leave the range of the type
  the wrap-around is written out.
* The non-terminating `while (true)` loop is run with a fuel argument counting
  loop iterations.
* What the runtime does inside its entry points is not part of the program; the
  values the program reads back from it are the fields of `Library`.
-/

namespace LlmDemo

/-! ## Declarations of `rkllm.h` used by the program -/

/-- Enumerator values of `rkllm.h` and `SIGINT` of `<csignal>`.  The header is
not among the sources, so the values are a parameter of the development. -/
structure Header where
  RKLLM_RUN_NORMAL : Int
  RKLLM_RUN_FINISH : Int
  RKLLM_RUN_ERROR : Int
  RKLLM_RUN_GET_LAST_HIDDEN_LAYER : Int
  RKLLM_INPUT_PROMPT : Int
  RKLLM_INFER_GENERATE : Int
  SIGINT : Int
deriving DecidableEq, Repr

/-- A C floating constant as written in the source text: `mant / 10 ^ scale`.
`0.95` is `⟨95, 2⟩`.  Rounding to a binary `float` is left to the compiler. -/
structure FloatConst where
  mant : Nat
  scale : Nat
deriving DecidableEq, Repr

/-- The member of `RKLLMExtendParam` the program names; `others` stands for the
remaining members declared in `rkllm.h`. -/
structure RKLLMExtendParam where
  base_domain_id : Int
  others : Nat
deriving DecidableEq, Repr

/-- The members of `RKLLMParam` the program names; `others` stands for the
remaining members declared in `rkllm.h`. -/
structure RKLLMParam where
  model_path : String
  max_context_len : Int
  max_new_tokens : Int
  top_k : Int
  top_p : FloatConst
  temperature : FloatConst
  repeat_penalty : FloatConst
  frequency_penalty : FloatConst
  presence_penalty : FloatConst
  skip_special_token : Bool
  extend_param : RKLLMExtendParam
  others : Nat
deriving DecidableEq, Repr

/-- The members of `RKLLMInput` the program writes.  `prompt_input` is a `char*`:
the C string found at the pointer stored in the member. -/
structure RKLLMInput where
  input_type : Int
  prompt_input : String
deriving DecidableEq, Repr

/-- The struct `RKLLMInferParam`: `mode`, the two pointer members the source
mentions, and `others` for the remaining bytes (`0` is all-zero bytes). -/
structure RKLLMInferParam where
  mode : Int
  lora_params : Option Nat
  prompt_cache_params : Option Nat
  others : Nat
deriving DecidableEq, Repr

/-- The member `last_hidden_layer` of `RKLLMResult`; `hidden_states` is the
address of the buffer owned by the runtime, `embd_size` and `num_tokens` are of
type `int`. -/
structure RKLLMResultLastHiddenLayer where
  hidden_states : Nat
  embd_size : Int
  num_tokens : Int
deriving DecidableEq, Repr

/-- The members of `RKLLMResult` the callback reads. -/
structure RKLLMResult where
  text : String
  last_hidden_layer : RKLLMResultLastHiddenLayer
deriving DecidableEq, Repr

/-- What the program reads back from the runtime: the record returned by
`rkllm_createDefaultParam`, and for `rkllm_init` the returned status together
with the value left in `llmHandle` (`none` is `nullptr`). -/
structure Library where
  rkllm_createDefaultParam : RKLLMParam
  rkllm_init : RKLLMParam → Int × Option Nat

/-! ## Observable actions -/

/-- One observable action of the program. -/
inductive Event where
  | signal (signum : Int)
  | stdout (s : String)
  | stderr (s : String)
  | rkllm_createDefaultParam
  | rkllm_init (param : RKLLMParam)
  | rkllm_run (handle : Option Nat) (input : RKLLMInput) (infer : RKLLMInferParam)
      (userdata : Option Nat)
  | rkllm_destroy (handle : Option Nat)
  | exit (code : Int)
  | ofstreamOpen (path : String)
  | ofstreamWrite (path : String) (buf : Nat) (count : Int)
  | ofstreamClose (path : String)
deriving DecidableEq, Repr

/-- An action together with the value of the global `llmHandle` at the moment the
action is performed. -/
structure Step where
  ev : Event
  llmHandle : Option Nat
deriving DecidableEq, Repr

/-- How a run of `main` ends: `return code`, `exit(code)`, or still inside the
loop when the fuel is used up. -/
inductive Outcome where
  | returned (code : Int)
  | exited (code : Int)
  | running
deriving DecidableEq, Repr

/-! ## Machine arithmetic and `atoi` -/

/-- Conversion to a 32-bit `int` (two's complement wrap-around). -/
def wrapInt32 (x : Int) : Int := (x + 2147483648) % 4294967296 - 2147483648

/-- Conversion to a 64-bit `size_t`. -/
def toSizeT (x : Int) : Int := x % 18446744073709551616

/-- The value of `sizeof(float)`. -/
def sizeofFloat : Int := 4

/-- The C `isspace` in the "C" locale. -/
def isspace (c : Char) : Bool :=
  c = ' ' || c = '\t' || c = '\n' || c = '\x0b' || c = '\x0c' || c = '\r'

/-- Optional sign of a numeral: `true` when negative, and the rest. -/
def atoiSign : List Char → Bool × List Char
  | '-' :: r => (true, r)
  | '+' :: r => (false, r)
  | r => (false, r)

/-- Value of the longest run of leading decimal digits, starting from `acc`. -/
def atoiDigits : List Char → Int → Int
  | [], acc => acc
  | c :: cs, acc => if c.isDigit then atoiDigits cs (acc * 10 + (c.toNat - 48 : Nat)) else acc

/-- The result of `strtol(s, NULL, 10)` with a 64-bit `long`: white space, an
optional sign, decimal digits; saturating at the ends of the range. -/
def strtol (s : String) : Int :=
  let sr := atoiSign (s.toList.dropWhile isspace)
  let v := atoiDigits sr.2 0
  let v := if sr.1 then -v else v
  max (-9223372036854775808) (min 9223372036854775807 v)

/-- The C library `atoi`, which is `(int)strtol(s, NULL, 10)`; the conversion of
an out-of-range `long` to `int` wraps around. -/
def atoi (s : String) : Int := wrapInt32 (strtol s)

/-! ## `llm_demo.cpp` -/

/-- The C string denoted by the pointer `s.c_str()` of a `std::string`: the
content of `s` up to its first NUL character. -/
def c_str (s : String) : String :=
  String.mk (s.data.takeWhile (fun c => decide (c ≠ Char.ofNat 0)))

/-- The macro `PROMPT_TEXT_PREFIX`. -/
def PROMPT_TEXT_PREFIX : String := "<｜begin▁of▁sentence｜><｜User｜>"

/-- The macro `PROMPT_TEXT_POSTFIX`. -/
def PROMPT_TEXT_POSTFIX : String := "<｜Assistant｜>"

/-- Result of `exit_handler`: the value of `llmHandle` it leaves, the actions it
performs, and the argument of the final `exit`. -/
structure ExitResult where
  llmHandle : Option Nat
  steps : List Step
  code : Int
deriving DecidableEq, Repr

/-- The function `exit_handler(int signal)`, run with the global `llmHandle`.
When the handle is non-null: the message is printed, the handle is copied to
`_tmp`, the global is set to null, `rkllm_destroy(_tmp)` is called; in both
cases `exit(signal)` ends the process. -/
def exit_handler (signal : Int) (llmHandle : Option Nat) : ExitResult :=
  match llmHandle with
  | some _tmp =>
    { llmHandle := none
      steps := [⟨.stdout "Exiting program...\n", some _tmp⟩,
                ⟨.rkllm_destroy (some _tmp), none⟩,
                ⟨.exit signal, none⟩]
      code := signal }
  | none =>
    { llmHandle := none
      steps := [⟨.exit signal, none⟩]
      code := signal }

/-- The local `data_size` of the callback:
`int data_size = embd_size * num_tokens * sizeof(float)`. -/
def data_size (embd_size num_tokens : Int) : Int :=
  wrapInt32 (toSizeT (toSizeT (wrapInt32 (embd_size * num_tokens)) * sizeofFloat))

/-- The function `callback(result, userdata, state)`.  `opens` tells whether the
`std::ofstream` constructor manages to open the file; `ofstreamOpen` is the
construction `std::ofstream(path, std::ios::binary)`, which truncates the file,
and `ofstreamWrite path buf count` is the call `write(buf, count)`. -/
def callback (hdr : Header) (opens : Bool) (result : RKLLMResult) (_userdata : Option Nat)
    (state : Int) : List Event :=
  if state = hdr.RKLLM_RUN_FINISH then
    [.stdout "\n"]
  else if state = hdr.RKLLM_RUN_ERROR then
    [.stdout "\\run error\n"]
  else if state = hdr.RKLLM_RUN_GET_LAST_HIDDEN_LAYER then
    if result.last_hidden_layer.embd_size ≠ 0 ∧ result.last_hidden_layer.num_tokens ≠ 0 then
      let ds := data_size result.last_hidden_layer.embd_size result.last_hidden_layer.num_tokens
      [.stdout ("\ndata_size:" ++ toString ds), .ofstreamOpen "last_hidden_layer.bin"] ++
        (if opens then
          [.ofstreamWrite "last_hidden_layer.bin" result.last_hidden_layer.hidden_states ds,
           .ofstreamClose "last_hidden_layer.bin",
           .stdout "Data saved to output.bin successfully!\n"]
        else
          [.stderr "Failed to open the file for writing!\n"])
    else
      []
  else if state = hdr.RKLLM_RUN_NORMAL then
    [.stdout result.text]
  else
    []

/-- The vector `pre_input` after the two `push_back` calls. -/
def pre_input : List String :=
  ["Write a poem about snow",
   "Each boy plants 3 trees, and each girl plants 2 trees. The total number of people is 12, and the total number of trees is 32. Find the number of men and women."]

/-- The `for` loop that prints the numbered preset questions, from index `i`
with `k` entries left. -/
def printPresets (pre : List String) : Nat → Nat → List Event
  | 0, _ => []
  | k + 1, i =>
    .stdout ("[" ++ toString i ++ "] " ++ pre.getD i "" ++ "\n") :: printPresets pre k (i + 1)

/-- The `for` loop inside the read loop, from index `i` with `k` entries left:
a line equal to `to_string(i)` is replaced by `pre_input[i]` and echoed. -/
def presetLoop (pre : List String) : Nat → Nat → String → String × List Event
  | 0, _, input_str => (input_str, [])
  | k + 1, i, input_str =>
    if input_str = toString i then
      let input_str := pre.getD i ""
      let r := presetLoop pre k (i + 1) input_str
      (r.1, .stdout (input_str ++ "\n") :: r.2)
    else
      presetLoop pre k (i + 1) input_str

/-- The question sent for an input line, and the echo actions. -/
def presetSubst (input_str : String) : String × List Event :=
  presetLoop pre_input pre_input.length 0 input_str

/-- The `RKLLMInferParam` after `memset(.., 0, ..)` and `mode = RKLLM_INFER_GENERATE`. -/
def rkllm_infer_params (hdr : Header) : RKLLMInferParam :=
  let zeroed : RKLLMInferParam :=
    { mode := 0, lora_params := none, prompt_cache_params := none, others := 0 }
  { zeroed with mode := hdr.RKLLM_INFER_GENERATE }

/-- The `while (true)` loop of `main`, for at most `fuel` iterations.  `stdin` is
the list of lines still unread; `std::getline` on exhausted input leaves the
fresh `input_str` empty.  The flag is `true` when the loop was left by `break`. -/
def readLoop (hdr : Header) (llmHandle : Option Nat) : Nat → List String → Bool × List Event
  | 0, _ => (false, [])
  | fuel + 1, stdin =>
    let input_str := stdin.headD ""
    if input_str = "exit" then
      (true, [.stdout "\n", .stdout "user: "])
    else
      let q := presetSubst input_str
      let text := PROMPT_TEXT_PREFIX ++ q.1 ++ PROMPT_TEXT_POSTFIX
      let rkllm_input : RKLLMInput :=
        { input_type := hdr.RKLLM_INPUT_PROMPT, prompt_input := c_str text }
      let r := readLoop hdr llmHandle fuel stdin.tail
      (r.1, [.stdout "\n", .stdout "user: "] ++ q.2 ++
        [.stdout "robot: ", .rkllm_run llmHandle rkllm_input (rkllm_infer_params hdr) none] ++ r.2)

/-- The usage message written to `std::cerr`; `argv[0]` is the program name.
With an empty argument vector `argv[0]` is a null pointer, whose insertion puts
the stream in an error state, so only the first piece is written. -/
def usage (argv : List String) : List Event :=
  match argv with
  | argv0 :: _ => [.stderr ("Usage: " ++ argv0 ++ " model_path max_new_tokens max_context_len\n")]
  | [] => [.stderr "Usage: "]

/-- The record passed to `rkllm_init`: the default record with the assignments
of `main` applied in source order. -/
def buildParam (lib : Library) (argv : List String) : RKLLMParam :=
  let param := lib.rkllm_createDefaultParam
  let param := { param with model_path := argv.getD 1 "" }
  let param := { param with top_k := 1 }
  let param := { param with top_p := ⟨95, 2⟩ }
  let param := { param with temperature := ⟨8, 1⟩ }
  let param := { param with repeat_penalty := ⟨11, 1⟩ }
  let param := { param with frequency_penalty := ⟨0, 1⟩ }
  let param := { param with presence_penalty := ⟨0, 1⟩ }
  let param := { param with max_new_tokens := atoi (argv.getD 2 "") }
  let param := { param with max_context_len := atoi (argv.getD 3 "") }
  let param := { param with skip_special_token := true }
  { param with extend_param := { param.extend_param with base_domain_id := 0 } }

/-- The banner above the preset list, with the newline of `endl`. -/
def bannerTop : String :=
  "\n********************** Enter question number or type your own question ********************\n" ++ "\n"

/-- The banner below the preset list, with the newline of `endl`. -/
def bannerBottom : String :=
  "\n*************************************************************************\n" ++ "\n"

/-- The function `main(argc, argv)` with `argc = argv.length`, the lines of the
standard input, and a bound on the number of loop iterations. -/
def main (hdr : Header) (lib : Library) (argv : List String) (stdin : List String)
    (fuel : Nat) : Outcome × List Event :=
  let argc := argv.length
  if argc < 4 then
    (.returned 1, usage argv)
  else
    let param := buildParam lib argv
    let ir := lib.rkllm_init param
    let ret := ir.1
    let llmHandle := ir.2
    let start : List Event :=
      [.signal hdr.SIGINT, .stdout "rkllm init start\n", .rkllm_createDefaultParam,
       .rkllm_init param]
    if ret = 0 then
      let banner : List Event :=
        [.stdout "rkllm init success\n", .stdout bannerTop] ++
          printPresets pre_input pre_input.length 0 ++ [.stdout bannerBottom]
      let r := readLoop hdr llmHandle fuel stdin
      if r.1 then
        (.returned 0, start ++ banner ++ r.2 ++ [.rkllm_destroy llmHandle])
      else
        (.running, start ++ banner ++ r.2)
    else
      let x := exit_handler (-1) llmHandle
      (.exited x.code, start ++ [.stdout "rkllm init failed\n"] ++ x.steps.map Step.ev)

/-! ## Vocabulary for stating the properties -/

/-- An action is a call of one of the four runtime entry points. -/
def Event.isLibraryCall : Event → Bool
  | .rkllm_createDefaultParam => true
  | .rkllm_init _ => true
  | .rkllm_run _ _ _ _ => true
  | .rkllm_destroy _ => true
  | _ => false

/-- An action is a call of `rkllm_run`. -/
def Event.isRun : Event → Bool
  | .rkllm_run _ _ _ _ => true
  | _ => false

/-- The call of `rkllm_run` expected for an input line: prompt input the C string
of the text made of the prefix, the question after preset substitution and the
postfix; generate mode with every other inference parameter zero; null
`userdata`. -/
def runCall (hdr : Header) (llmHandle : Option Nat) (line : String) : Event :=
  .rkllm_run llmHandle
    { input_type := hdr.RKLLM_INPUT_PROMPT
      prompt_input :=
        c_str (PROMPT_TEXT_PREFIX ++ (presetSubst line).1 ++ PROMPT_TEXT_POSTFIX) }
    { mode := hdr.RKLLM_INFER_GENERATE, lora_params := none, prompt_cache_params := none,
      others := 0 }
    none


/-- An action is a call of `rkllm_destroy`. -/
def Event.isDestroy : Event → Bool
  | .rkllm_destroy _ => true
  | _ => false

/-- An action installs a signal handler. -/
def Event.isSignal : Event → Bool
  | .signal _ => true
  | _ => false

/-- An action writes to the standard error stream. -/
def Event.isStderr : Event → Bool
  | .stderr _ => true
  | _ => false

/-- The four call-state enumerators named by the callback have pairwise
different values. -/
def Header.callStatesDistinct (hdr : Header) : Prop :=
  hdr.RKLLM_RUN_FINISH ≠ hdr.RKLLM_RUN_ERROR ∧
  hdr.RKLLM_RUN_FINISH ≠ hdr.RKLLM_RUN_GET_LAST_HIDDEN_LAYER ∧
  hdr.RKLLM_RUN_FINISH ≠ hdr.RKLLM_RUN_NORMAL ∧
  hdr.RKLLM_RUN_ERROR ≠ hdr.RKLLM_RUN_GET_LAST_HIDDEN_LAYER ∧
  hdr.RKLLM_RUN_ERROR ≠ hdr.RKLLM_RUN_NORMAL ∧
  hdr.RKLLM_RUN_GET_LAST_HIDDEN_LAYER ≠ hdr.RKLLM_RUN_NORMAL

instance (hdr : Header) : Decidable hdr.callStatesDistinct := by
  unfold Header.callStatesDistinct
  infer_instance

/-- An action touches the file system. -/
def Event.isFileOp : Event → Bool
  | .ofstreamOpen _ => true
  | .ofstreamWrite _ _ _ => true
  | .ofstreamClose _ => true
  | _ => false

/-- A step is a call of `rkllm_destroy`. -/
def Step.isDestroy (s : Step) : Bool := s.ev.isDestroy

/-- An action is a call of `rkllm_init`. -/
def Event.isInit : Event → Bool
  | .rkllm_init _ => true
  | _ => false

/-- The text has a decimal digit right after its leading white space and optional
sign, that is, it starts with a decimal integer. -/
def hasLeadingInteger (s : String) : Bool :=
  match (atoiSign (s.toList.dropWhile isspace)).2 with
  | c :: _ => c.isDigit
  | [] => false

/-! ## Concrete inputs used to instantiate the theorems -/

/-- Enumerator values as in `rkllm.h` of the runtime, and `SIGINT` on Linux. -/
def hdrW : Header :=
  { RKLLM_RUN_NORMAL := 0, RKLLM_RUN_FINISH := 2, RKLLM_RUN_ERROR := 3,
    RKLLM_RUN_GET_LAST_HIDDEN_LAYER := 4, RKLLM_INPUT_PROMPT := 0, RKLLM_INFER_GENERATE := 0,
    SIGINT := 2 }

/-- A default parameter record. -/
def paramW : RKLLMParam :=
  { model_path := "", max_context_len := 512, max_new_tokens := 256, top_k := 40,
    top_p := ⟨9, 1⟩, temperature := ⟨8, 1⟩, repeat_penalty := ⟨11, 1⟩,
    frequency_penalty := ⟨0, 1⟩, presence_penalty := ⟨0, 1⟩, skip_special_token := false,
    extend_param := { base_domain_id := 7, others := 3 }, others := 5 }

/-- A runtime whose `rkllm_init` succeeds and sets the handle. -/
def libOk : Library := { rkllm_createDefaultParam := paramW, rkllm_init := fun _ => (0, some 1) }
/-- A runtime whose `rkllm_init` fails after setting the handle. -/
def libFail : Library := { rkllm_createDefaultParam := paramW, rkllm_init := fun _ => (-1, some 1) }
/-- A runtime whose `rkllm_init` fails and leaves the handle null. -/
def libFailNull : Library := { rkllm_createDefaultParam := paramW, rkllm_init := fun _ => (-1, none) }
/-- An argument vector with the three expected arguments. -/
def argvW : List String := ["llm_demo", "model.rkllm", "256", "512"]

/-! ## Lemmas about the program -/

/-- Closed form of the preset scan over the two preset questions. -/
theorem presetSubst_eq (s : String) :
    presetSubst s =
      if s = "0" then (pre_input.getD 0 "", [.stdout (pre_input.getD 0 "" ++ "\n")])
      else if s = "1" then (pre_input.getD 1 "", [.stdout (pre_input.getD 1 "" ++ "\n")])
      else (s, []) := by
  have t0 : toString (0 : Nat) = "0" := by decide
  have t1 : toString (0 + 1 : Nat) = "1" := by decide
  unfold presetSubst
  simp only [pre_input, List.length_cons, List.length_nil]
  by_cases h0 : s = "0"
  · subst h0
    simp [presetLoop, t0, t1]
  · by_cases h1 : s = "1"
    · subst h1
      simp [presetLoop, t0, t1]
    · simp only [presetLoop, t0, t1, h0, h1, if_false]

/-- The preset scan only writes to the standard output. -/
theorem presetSubst_echo_filter (p : Event → Bool) (hp : ∀ t, p (.stdout t) = false) (s : String) :
    (presetSubst s).2.filter p = [] := by
  rw [presetSubst_eq]
  split_ifs <;> simp [hp]

/-- One iteration of the read loop. -/
theorem readLoop_succ (hdr : Header) (h : Option Nat) (fuel : Nat) (stdin : List String) :
    readLoop hdr h (fuel + 1) stdin =
      if stdin.headD "" = "exit" then (true, [.stdout "\n", .stdout "user: "])
      else
        ((readLoop hdr h fuel stdin.tail).1,
          [.stdout "\n", .stdout "user: "] ++ (presetSubst (stdin.headD "")).2 ++
            [.stdout "robot: ", runCall hdr h (stdin.headD "")] ++
            (readLoop hdr h fuel stdin.tail).2) := by
  rfl

/-- With an `exit` line and enough iterations the loop is left by `break`, and its
runtime calls are the `rkllm_run` calls for the lines before that line. -/
theorem readLoop_calls_of_exit (hdr : Header) (h : Option Nat) (p : Event → Bool)
    (hp : ∀ t, p (.stdout t) = false) (hr : ∀ a b c d, p (.rkllm_run a b c d) = true) :
    ∀ (stdin : List String) (fuel : Nat), "exit" ∈ stdin →
      (stdin.takeWhile (fun l => decide (l ≠ "exit"))).length < fuel →
      (readLoop hdr h fuel stdin).1 = true ∧
      (readLoop hdr h fuel stdin).2.filter p =
        (stdin.takeWhile (fun l => decide (l ≠ "exit"))).map (runCall hdr h) := by
  intro stdin
  induction stdin with
  | nil => intro fuel hmem; simp at hmem
  | cons l ls ih =>
    intro fuel hmem hlen
    cases fuel with
    | zero => omega
    | succ f =>
      rw [readLoop_succ]
      by_cases hl : l = "exit"
      · subst hl
        simp [hp]
      · have hmem2 : "exit" ∈ ls := by
          rcases List.mem_cons.mp hmem with h1 | h1
          · exact absurd h1.symm hl
          · exact h1
        have hlen2 : (ls.takeWhile (fun l => decide (l ≠ "exit"))).length < f := by
          simp [List.takeWhile_cons, hl] at hlen
          simpa using hlen
        obtain ⟨ih1, ih2⟩ := ih f hmem2 hlen2
        simp only [List.headD_cons, hl, if_false, List.tail_cons, List.filter_append, ih1, ih2]
        refine ⟨trivial, ?_⟩
        rw [presetSubst_echo_filter p hp]
        simp [List.takeWhile_cons, hl, hp, hr, runCall]

/-- Reading line `i` of the rest of the input is reading line `i + 1`. -/
theorem getD_tail (stdin : List String) (i : Nat) :
    stdin.tail.getD i "" = stdin.getD (i + 1) "" := by
  cases stdin <;> simp

/-- Without an `exit` line the loop is never left, and after `fuel` iterations its
runtime calls are the `rkllm_run` calls for the first `fuel` lines read. -/
theorem readLoop_calls_no_exit (hdr : Header) (h : Option Nat) (p : Event → Bool)
    (hp : ∀ t, p (.stdout t) = false) (hr : ∀ a b c d, p (.rkllm_run a b c d) = true) :
    ∀ (fuel : Nat) (stdin : List String), "exit" ∉ stdin →
      (readLoop hdr h fuel stdin).1 = false ∧
      (readLoop hdr h fuel stdin).2.filter p =
        (List.range fuel).map (fun i => runCall hdr h (stdin.getD i "")) := by
  intro fuel
  induction fuel with
  | zero => intro stdin _; simp [readLoop]
  | succ f ih =>
    intro stdin hno
    rw [readLoop_succ]
    have hhead : stdin.headD "" ≠ "exit" := by
      cases stdin with
      | nil => decide
      | cons l ls => intro hl; exact hno (by simp [← hl])
    have htail : "exit" ∉ stdin.tail := fun hm => hno (List.mem_of_mem_tail hm)
    obtain ⟨ih1, ih2⟩ := ih stdin.tail htail
    rw [if_neg hhead]
    simp only [List.filter_append, ih1, ih2]
    refine ⟨trivial, ?_⟩
    rw [presetSubst_echo_filter p hp]
    have e1 : List.filter p [Event.stdout "\n", Event.stdout "user: "] = [] := by
      simp [hp]
    have e2 : List.filter p [Event.stdout "robot: ", runCall hdr h (stdin.headD "")]
          = [runCall hdr h (stdin.headD "")] := by
      simp [hp, hr, runCall]
    have e3 : stdin.headD "" = stdin.getD 0 "" := by cases stdin <;> simp
    rw [e1, e2, e3, List.range_succ_eq_map]
    simp [getD_tail, Function.comp_def]

/-- The loop only writes to the standard output and calls `rkllm_run`. -/
theorem readLoop_events (hdr : Header) (h : Option Nat) :
    ∀ (fuel : Nat) (stdin : List String), ∀ e ∈ (readLoop hdr h fuel stdin).2,
      (∃ t, e = .stdout t) ∨ e.isRun = true := by
  intro fuel
  induction fuel with
  | zero => intro stdin e he; simp [readLoop] at he
  | succ f ih =>
    intro stdin e he
    rw [readLoop_succ] at he
    by_cases hhead : stdin.headD "" = "exit"
    · rw [if_pos hhead] at he
      simp only [List.mem_cons, List.mem_singleton, List.not_mem_nil, or_false] at he
      rcases he with he | he <;> exact Or.inl ⟨_, he⟩
    · rw [if_neg hhead] at he
      simp only [List.mem_append, List.mem_cons, List.mem_singleton, List.not_mem_nil,
        or_false] at he
      rcases he with ((((he | he) | he) | he) | he)
      · exact Or.inl ⟨_, he⟩
      · exact Or.inl ⟨_, he⟩
      · rw [presetSubst_eq] at he
        split_ifs at he <;> simp at he <;> exact Or.inl ⟨_, he⟩
      · rcases he with he | he
        · exact Or.inl ⟨_, he⟩
        · exact Or.inr (by rw [he]; rfl)
      · exact ih stdin.tail e he

/-- The i-th `rkllm_run` call of the loop is the expected call for line `i`, which
is not `exit`. -/
theorem readLoop_runs_get (hdr : Header) (h : Option Nat) :
    ∀ (fuel : Nat) (stdin : List String) (i : Nat),
      i < ((readLoop hdr h fuel stdin).2.filter Event.isRun).length →
      stdin.getD i "" ≠ "exit" ∧
      ((readLoop hdr h fuel stdin).2.filter Event.isRun)[i]? =
        some (runCall hdr h (stdin.getD i "")) := by
  intro fuel
  induction fuel with
  | zero => intro stdin i hi; simp [readLoop] at hi
  | succ f ih =>
    intro stdin i
    rw [readLoop_succ]
    by_cases hhead : stdin.headD "" = "exit"
    · rw [if_pos hhead]
      intro hi
      simp [Event.isRun] at hi
    · rw [if_neg hhead]
      simp only [List.filter_append]
      rw [presetSubst_echo_filter _ (fun _ => rfl)]
      have e1 : List.filter Event.isRun [Event.stdout "\n", Event.stdout "user: "] = [] := rfl
      have e2 : List.filter Event.isRun [Event.stdout "robot: ", runCall hdr h (stdin.headD "")]
          = [runCall hdr h (stdin.headD "")] := rfl
      have e3 : stdin.headD "" = stdin.getD 0 "" := by cases stdin <;> simp
      rw [e1, e2]
      simp only [List.nil_append, List.singleton_append, List.length_cons, List.append_nil]
      intro hi
      cases i with
      | zero =>
        rw [← e3]
        exact ⟨hhead, by simp⟩
      | succ j =>
        have hj : j < ((readLoop hdr h f stdin.tail).2.filter Event.isRun).length := by omega
        obtain ⟨a, b⟩ := ih stdin.tail j hj
        rw [getD_tail] at a b
        exact ⟨a, by simpa using b⟩

/-- The banner only writes to the standard output. -/
theorem banner_filter (p : Event → Bool) (hp : ∀ t, p (.stdout t) = false) :
    ([Event.stdout "rkllm init success\n", Event.stdout bannerTop] ++
      printPresets pre_input pre_input.length 0 ++ [Event.stdout bannerBottom]).filter p = [] := by
  simp [printPresets, pre_input, hp]

/-- The function `main` when the arguments are present and `rkllm_init` returns 0. -/
theorem main_of_init_ok (hdr : Header) (lib : Library) (argv stdin : List String) (fuel : Nat)
    (hargs : 4 ≤ argv.length) (hinit : (lib.rkllm_init (buildParam lib argv)).1 = 0) :
    main hdr lib argv stdin fuel =
      if (readLoop hdr (lib.rkllm_init (buildParam lib argv)).2 fuel stdin).1 then
        (.returned 0,
          [.signal hdr.SIGINT, .stdout "rkllm init start\n", .rkllm_createDefaultParam,
            .rkllm_init (buildParam lib argv)] ++
          ([.stdout "rkllm init success\n", .stdout bannerTop] ++
            printPresets pre_input pre_input.length 0 ++ [.stdout bannerBottom]) ++
          (readLoop hdr (lib.rkllm_init (buildParam lib argv)).2 fuel stdin).2 ++
          [.rkllm_destroy (lib.rkllm_init (buildParam lib argv)).2])
      else
        (.running,
          [.signal hdr.SIGINT, .stdout "rkllm init start\n", .rkllm_createDefaultParam,
            .rkllm_init (buildParam lib argv)] ++
          ([.stdout "rkllm init success\n", .stdout bannerTop] ++
            printPresets pre_input pre_input.length 0 ++ [.stdout bannerBottom]) ++
          (readLoop hdr (lib.rkllm_init (buildParam lib argv)).2 fuel stdin).2) := by
  have h4 : ¬ argv.length < 4 := by omega
  simp only [main, h4, hinit, if_true, if_false]

/-- The function `main` when the arguments are present and `rkllm_init` fails. -/
theorem main_of_init_failed (hdr : Header) (lib : Library) (argv stdin : List String) (fuel : Nat)
    (hargs : 4 ≤ argv.length) (hinit : (lib.rkllm_init (buildParam lib argv)).1 ≠ 0) :
    main hdr lib argv stdin fuel =
      (.exited (exit_handler (-1) (lib.rkllm_init (buildParam lib argv)).2).code,
        [.signal hdr.SIGINT, .stdout "rkllm init start\n", .rkllm_createDefaultParam,
          .rkllm_init (buildParam lib argv)] ++ [.stdout "rkllm init failed\n"] ++
        (exit_handler (-1) (lib.rkllm_init (buildParam lib argv)).2).steps.map Step.ev) := by
  have h4 : ¬ argv.length < 4 := by omega
  simp only [main, h4, hinit, if_false]

/-- The actions of `exit_handler` and its exit code. -/
theorem exit_handler_events (signal : Int) (h : Option Nat) :
    (exit_handler signal h).steps.map Step.ev =
      (match h with
        | some v => [Event.stdout "Exiting program...\n", Event.rkllm_destroy (some v)]
        | none => []) ++ [Event.exit signal] ∧
    (exit_handler signal h).code = signal := by
  cases h <;> exact ⟨rfl, rfl⟩

/-- The `rkllm_run` calls of `main` are those of its read loop. -/
theorem main_runs (hdr : Header) (lib : Library) (argv stdin : List String) (fuel : Nat) :
    (main hdr lib argv stdin fuel).2.filter Event.isRun =
      if 4 ≤ argv.length ∧ (lib.rkllm_init (buildParam lib argv)).1 = 0 then
        (readLoop hdr (lib.rkllm_init (buildParam lib argv)).2 fuel stdin).2.filter Event.isRun
      else [] := by
  by_cases hargs : 4 ≤ argv.length
  · by_cases hinit : (lib.rkllm_init (buildParam lib argv)).1 = 0
    · have hc : 4 ≤ argv.length ∧ (lib.rkllm_init (buildParam lib argv)).1 = 0 :=
        ⟨hargs, hinit⟩
      rw [if_pos hc, main_of_init_ok hdr lib argv stdin fuel hargs hinit]
      split_ifs
      · simp only [List.filter_append, banner_filter Event.isRun (fun _ => rfl)]
        simp [Event.isRun]
      · simp only [List.filter_append, banner_filter Event.isRun (fun _ => rfl)]
        simp [Event.isRun]
    · rw [main_of_init_failed hdr lib argv stdin fuel hargs hinit, if_neg (fun h => hinit h.2),
        (exit_handler_events _ _).1]
      cases (lib.rkllm_init (buildParam lib argv)).2 <;> simp [Event.isRun]
  · rw [if_neg (fun h => hargs h.1)]
    have h4 : argv.length < 4 := by omega
    simp only [main, h4, if_true]
    cases argv <;> simp [usage, Event.isRun]

/-- Byte length of a concatenation of character lists. -/
theorem utf8ByteSize_go_append (a b : List Char) :
    String.utf8ByteSize.go (a ++ b) = String.utf8ByteSize.go a + String.utf8ByteSize.go b := by
  induction a with
  | nil => simp [String.utf8ByteSize.go]
  | cons c cs ih => simp [String.utf8ByteSize.go, ih]; omega

/-- Byte length of a concatenation of strings. -/
theorem utf8ByteSize_append (s t : String) :
    (s ++ t).utf8ByteSize = s.utf8ByteSize + t.utf8ByteSize := by
  cases s with
  | mk a =>
  cases t with
  | mk b =>
  show String.utf8ByteSize.go (a ++ b) = String.utf8ByteSize.go a + String.utf8ByteSize.go b
  exact utf8ByteSize_go_append a b

/-- A string without NUL character is its own C string. -/
theorem c_str_of_no_nul (s : String) (h : Char.ofNat 0 ∉ s.data) : c_str s = s := by
  unfold c_str
  have hs : s.data.takeWhile (fun c => decide (c ≠ Char.ofNat 0)) = s.data := by
    rw [List.takeWhile_eq_self_iff]
    intro x hx
    have hne : x ≠ Char.ofNat 0 := fun hx0 => h (hx0 ▸ hx)
    simpa using hne
  rw [hs]

/-- The C string of a prompt text starts with the prefix. -/
theorem c_str_prompt_prefix (q : String) :
    PROMPT_TEXT_PREFIX.data <+:
      (c_str (PROMPT_TEXT_PREFIX ++ q ++ PROMPT_TEXT_POSTFIX)).data := by
  have hp : ∀ a ∈ PROMPT_TEXT_PREFIX.data, decide (a ≠ Char.ofNat 0) = true := by decide
  unfold c_str
  simp only [String.data_append, List.append_assoc]
  rw [List.takeWhile_append_of_pos hp]
  exact List.prefix_append _ _

/-- The prompt text has a NUL character only when the question has one. -/
theorem prompt_no_nul (q : String) (h : Char.ofNat 0 ∉ q.data) :
    Char.ofNat 0 ∉ (PROMPT_TEXT_PREFIX ++ q ++ PROMPT_TEXT_POSTFIX).data := by
  have h1 : Char.ofNat 0 ∉ PROMPT_TEXT_PREFIX.data := by decide
  have h2 : Char.ofNat 0 ∉ PROMPT_TEXT_POSTFIX.data := by decide
  simp only [String.data_append, List.mem_append, not_or]
  exact ⟨⟨h1, h⟩, h2⟩

/-- Preset substitution brings no NUL character into the question. -/
theorem presetSubst_no_nul (s : String) (h : Char.ofNat 0 ∉ s.data) :
    Char.ofNat 0 ∉ (presetSubst s).1.data := by
  have h0 : Char.ofNat 0 ∉ (pre_input.getD 0 "").data := by decide
  have h1 : Char.ofNat 0 ∉ (pre_input.getD 1 "").data := by decide
  rw [presetSubst_eq]
  split_ifs
  · exact h0
  · exact h1
  · exact h

/-- The prompt text past the end of the input is its own C string. -/
theorem c_str_prefix_postfix :
    c_str (PROMPT_TEXT_PREFIX ++ PROMPT_TEXT_POSTFIX) =
      PROMPT_TEXT_PREFIX ++ PROMPT_TEXT_POSTFIX :=
  c_str_of_no_nul _ (by decide)

/-- Shape of the prompt built around a question. -/
theorem prompt_shape (q : String) :
    PROMPT_TEXT_PREFIX.data <+: (PROMPT_TEXT_PREFIX ++ q ++ PROMPT_TEXT_POSTFIX).data ∧
    PROMPT_TEXT_POSTFIX.data <:+ (PROMPT_TEXT_PREFIX ++ q ++ PROMPT_TEXT_POSTFIX).data ∧
    (PROMPT_TEXT_PREFIX ++ q ++ PROMPT_TEXT_POSTFIX).length =
      PROMPT_TEXT_PREFIX.length + q.length + PROMPT_TEXT_POSTFIX.length ∧
    (PROMPT_TEXT_PREFIX ++ q ++ PROMPT_TEXT_POSTFIX).utf8ByteSize =
      PROMPT_TEXT_PREFIX.utf8ByteSize + q.utf8ByteSize + PROMPT_TEXT_POSTFIX.utf8ByteSize := by
  refine ⟨?_, ?_, ?_, ?_⟩
  · simp only [String.data_append, List.append_assoc]
    exact List.prefix_append _ _
  · simp only [String.data_append]
    exact List.suffix_append _ _
  · simp only [String.length_append]
  · simp only [utf8ByteSize_append]

/-- After a successful `rkllm_init` the trace starts with the four start-up
actions; everything after is a write to the standard output, a `rkllm_run` call,
or the final `rkllm_destroy` when the loop was left. -/
theorem main_events_of_init_ok (hdr : Header) (lib : Library) (argv stdin : List String)
    (fuel : Nat) (hargs : 4 ≤ argv.length)
    (hinit : (lib.rkllm_init (buildParam lib argv)).1 = 0) :
    ∃ rest, (main hdr lib argv stdin fuel).2 =
      [.signal hdr.SIGINT, .stdout "rkllm init start\n", .rkllm_createDefaultParam,
        .rkllm_init (buildParam lib argv)] ++ rest ∧
      ∀ e ∈ rest, (∃ t, e = .stdout t) ∨ e.isRun = true ∨
        ((readLoop hdr (lib.rkllm_init (buildParam lib argv)).2 fuel stdin).1 = true ∧
          e = .rkllm_destroy (lib.rkllm_init (buildParam lib argv)).2) := by
  rw [main_of_init_ok hdr lib argv stdin fuel hargs hinit]
  have hb : ∀ e ∈ [Event.stdout "rkllm init success\n", Event.stdout bannerTop] ++
      printPresets pre_input pre_input.length 0 ++ [Event.stdout bannerBottom],
      ∃ t, e = .stdout t := by
    intro e he
    simp [printPresets, pre_input] at he
    rcases he with he | he | he | he | he <;> exact ⟨_, he⟩
  by_cases hb1 : (readLoop hdr (lib.rkllm_init (buildParam lib argv)).2 fuel stdin).1 = true
  · rw [if_pos hb1]
    refine ⟨([Event.stdout "rkllm init success\n", Event.stdout bannerTop] ++
      printPresets pre_input pre_input.length 0 ++ [Event.stdout bannerBottom]) ++
      (readLoop hdr (lib.rkllm_init (buildParam lib argv)).2 fuel stdin).2 ++
      [.rkllm_destroy (lib.rkllm_init (buildParam lib argv)).2], ?_, ?_⟩
    · simp only [List.append_assoc]
    · intro e he
      rcases List.mem_append.mp he with he | he
      · rcases List.mem_append.mp he with he | he
        · exact Or.inl (hb e he)
        · rcases readLoop_events hdr _ fuel stdin e he with h1 | h1
          · exact Or.inl h1
          · exact Or.inr (Or.inl h1)
      · exact Or.inr (Or.inr ⟨hb1, List.mem_singleton.mp he⟩)
  · rw [if_neg hb1]
    refine ⟨([Event.stdout "rkllm init success\n", Event.stdout bannerTop] ++
      printPresets pre_input pre_input.length 0 ++ [Event.stdout bannerBottom]) ++
      (readLoop hdr (lib.rkllm_init (buildParam lib argv)).2 fuel stdin).2, ?_, ?_⟩
    · simp only [List.append_assoc]
    · intro e he
      rcases List.mem_append.mp he with he | he
      · exact Or.inl (hb e he)
      · rcases readLoop_events hdr _ fuel stdin e he with h1 | h1
        · exact Or.inl h1
        · exact Or.inr (Or.inl h1)

/-- The empty line is not a preset index. -/
theorem presetSubst_empty : (presetSubst "").1 = "" := by
  rw [presetSubst_eq]
  simp

/-- Without a leading integer `atoi` gives 0. -/
theorem atoi_of_no_leading_integer (s : String) (h : hasLeadingInteger s = false) :
    atoi s = 0 := by
  unfold hasLeadingInteger at h
  have hd : atoiDigits (atoiSign (s.toList.dropWhile isspace)).2 0 = 0 := by
    cases hl : (atoiSign (s.toList.dropWhile isspace)).2 with
    | nil => rfl
    | cons c cs =>
      rw [hl] at h
      simp only at h
      simp [atoiDigits, h]
  unfold atoi strtol
  simp only [hd]
  split_ifs <;> decide

/-- With the arguments present `main` calls `rkllm_init` exactly once. -/
theorem main_init_calls (hdr : Header) (lib : Library) (argv stdin : List String) (fuel : Nat)
    (hargs : 4 ≤ argv.length) :
    (main hdr lib argv stdin fuel).2.filter Event.isInit =
      [.rkllm_init (buildParam lib argv)] := by
  by_cases hinit : (lib.rkllm_init (buildParam lib argv)).1 = 0
  · obtain ⟨rest, hrest, hall⟩ := main_events_of_init_ok hdr lib argv stdin fuel hargs hinit
    have hr : rest.filter Event.isInit = [] := by
      rw [List.filter_eq_nil_iff]
      intro e he
      rcases hall e he with ⟨t, ht⟩ | h1 | ⟨_, h1⟩
      · rw [ht]; simp [Event.isInit]
      · cases e <;> simp_all [Event.isRun, Event.isInit]
      · rw [h1]; simp [Event.isInit]
    rw [hrest, List.filter_append, hr]
    rfl
  · rw [main_of_init_failed hdr lib argv stdin fuel hargs hinit, (exit_handler_events _ _).1]
    cases (lib.rkllm_init (buildParam lib argv)).2 <;> simp [Event.isInit]

/-! ## The claims -/

/-- C1: with at least three arguments after the program name, a successful
`rkllm_init` and an input containing the line `exit`, `main` (given enough loop
iterations) returns 0, and its runtime calls are, in order: the default-parameter
call, one `rkllm_init`, one `rkllm_run` for each line before the first `exit`
line in input order, and one `rkllm_destroy` on the handle. -/
theorem C1_normal_path_call_sequence (hdr : Header) (lib : Library) (argv stdin : List String)
    (fuel : Nat) (hargs : 4 ≤ argv.length)
    (hinit : (lib.rkllm_init (buildParam lib argv)).1 = 0) (hexit : "exit" ∈ stdin)
    (hfuel : (stdin.takeWhile (fun l => decide (l ≠ "exit"))).length < fuel) :
    (main hdr lib argv stdin fuel).1 = .returned 0 ∧
    (main hdr lib argv stdin fuel).2.filter Event.isLibraryCall =
      [.rkllm_createDefaultParam, .rkllm_init (buildParam lib argv)] ++
        (stdin.takeWhile (fun l => decide (l ≠ "exit"))).map
          (runCall hdr (lib.rkllm_init (buildParam lib argv)).2) ++
        [.rkllm_destroy (lib.rkllm_init (buildParam lib argv)).2] := by
  obtain ⟨h1, h2⟩ :=
    readLoop_calls_of_exit hdr (lib.rkllm_init (buildParam lib argv)).2 Event.isLibraryCall
      (fun _ => rfl) (fun _ _ _ _ => rfl) stdin fuel hexit hfuel
  rw [main_of_init_ok hdr lib argv stdin fuel hargs hinit, h1]
  refine ⟨rfl, ?_⟩
  simp only [if_true, List.filter_append, h2, banner_filter Event.isLibraryCall (fun _ => rfl)]
  rfl

theorem C1_normal_path_call_sequence_witness :
    4 ≤ argvW.length ∧ (libOk.rkllm_init (buildParam libOk argvW)).1 = 0 ∧
    "exit" ∈ ["0", "hello", "exit", "after"] ∧
    ((["0", "hello", "exit", "after"] : List String).takeWhile
      (fun l => decide (l ≠ "exit"))).length < 3 ∧
    (main hdrW libOk argvW ["0", "hello", "exit", "after"] 3).1 = .returned 0 ∧
    (main hdrW libOk argvW ["0", "hello", "exit", "after"] 3).2.filter Event.isLibraryCall =
      [.rkllm_createDefaultParam, .rkllm_init (buildParam libOk argvW)] ++
        ((["0", "hello", "exit", "after"] : List String).takeWhile
          (fun l => decide (l ≠ "exit"))).map
          (runCall hdrW (libOk.rkllm_init (buildParam libOk argvW)).2) ++
        [.rkllm_destroy (libOk.rkllm_init (buildParam libOk argvW)).2] :=
  ⟨by decide, by decide, by decide, by decide,
    C1_normal_path_call_sequence hdrW libOk argvW ["0", "hello", "exit", "after"] 3
      (by decide) (by decide) (by decide) (by decide)⟩

/-- C2: with fewer than three arguments after the program name (`argc < 4`)
`main` returns 1 and its only action is one write to the standard error stream,
the usage line built from the program name; it makes no runtime call and installs
no signal handler.  With `argc >= 4` it does not take this path: it does not
return 1, writes nothing to the standard error stream, and starts by installing
the handler, printing the start line and calling the runtime. -/
theorem C2_usage_path (hdr : Header) (lib : Library) (argv stdin : List String) (fuel : Nat) :
    (argv.length < 4 →
      (main hdr lib argv stdin fuel).1 = .returned 1 ∧
      (∃ t, (main hdr lib argv stdin fuel).2 = [.stderr t]) ∧
      (∀ argv0 rest, argv = argv0 :: rest →
        (main hdr lib argv stdin fuel).2 =
          [.stderr ("Usage: " ++ argv0 ++ " model_path max_new_tokens max_context_len\n")]) ∧
      (main hdr lib argv stdin fuel).2.filter Event.isLibraryCall = [] ∧
      (main hdr lib argv stdin fuel).2.filter Event.isSignal = []) ∧
    (4 ≤ argv.length →
      (main hdr lib argv stdin fuel).1 ≠ .returned 1 ∧
      (main hdr lib argv stdin fuel).2.filter Event.isStderr = [] ∧
      ∃ rest, (main hdr lib argv stdin fuel).2 =
        [.signal hdr.SIGINT, .stdout "rkllm init start\n", .rkllm_createDefaultParam,
          .rkllm_init (buildParam lib argv)] ++ rest) := by
  constructor
  · intro h4
    have hm : main hdr lib argv stdin fuel = (.returned 1, usage argv) := by
      simp only [main, h4, if_true]
    rw [hm]
    cases argv with
    | nil =>
      refine ⟨rfl, ⟨_, rfl⟩, ?_, rfl, rfl⟩
      intro argv0 rest h
      cases h
    | cons a as =>
      refine ⟨rfl, ⟨_, rfl⟩, ?_, rfl, rfl⟩
      intro argv0 rest h
      cases h
      rfl
  · intro hargs
    by_cases hinit : (lib.rkllm_init (buildParam lib argv)).1 = 0
    · obtain ⟨rest, hrest, hall⟩ := main_events_of_init_ok hdr lib argv stdin fuel hargs hinit
      refine ⟨?_, ?_, rest, hrest⟩
      · rw [main_of_init_ok hdr lib argv stdin fuel hargs hinit]
        split_ifs <;> simp
      · rw [hrest, List.filter_append]
        have hr : rest.filter Event.isStderr = [] := by
          rw [List.filter_eq_nil_iff]
          intro e he
          rcases hall e he with ⟨t, ht⟩ | h1 | ⟨_, h1⟩
          · rw [ht]; simp [Event.isStderr]
          · cases e <;> simp_all [Event.isRun, Event.isStderr]
          · rw [h1]; simp [Event.isStderr]
        rw [hr]
        rfl
    · have hm := main_of_init_failed hdr lib argv stdin fuel hargs hinit
      rw [(exit_handler_events _ _).1, (exit_handler_events _ _).2] at hm
      rw [hm]
      refine ⟨by simp, ?_, [Event.stdout "rkllm init failed\n"] ++
        ((match (lib.rkllm_init (buildParam lib argv)).2 with
          | some v => [Event.stdout "Exiting program...\n", Event.rkllm_destroy (some v)]
          | none => []) ++ [Event.exit (-1)]), by simp only [List.append_assoc]⟩
      cases (lib.rkllm_init (buildParam lib argv)).2 <;> simp [Event.isStderr]

theorem C2_usage_path_witness :
    (["llm_demo", "model.rkllm", "256"] : List String).length < 4 ∧
    (main hdrW libOk ["llm_demo", "model.rkllm", "256"] ["hello", "exit"] 5).1 = .returned 1 ∧
    (main hdrW libOk ["llm_demo", "model.rkllm", "256"] ["hello", "exit"] 5).2 =
      [.stderr "Usage: llm_demo model_path max_new_tokens max_context_len\n"] ∧
    4 ≤ argvW.length ∧
    (main hdrW libOk argvW ["hello", "exit"] 5).1 ≠ .returned 1 :=
  ⟨by decide,
    ((C2_usage_path hdrW libOk ["llm_demo", "model.rkllm", "256"] ["hello", "exit"] 5).1
      (by decide)).1,
    ((C2_usage_path hdrW libOk ["llm_demo", "model.rkllm", "256"] ["hello", "exit"] 5).1
      (by decide)).2.2.1 "llm_demo" ["model.rkllm", "256"] rfl,
    by decide,
    ((C2_usage_path hdrW libOk argvW ["hello", "exit"] 5).2 (by decide)).1⟩

/-- C3: the console output of the callback by state, for every result: FINISH
prints exactly a newline; ERROR prints exactly a backslash (character 92), then
`run error`, then a newline; NORMAL prints exactly `result->text`; every state
other than FINISH, ERROR, GET_LAST_HIDDEN_LAYER and NORMAL performs no action at
all; and no state other than GET_LAST_HIDDEN_LAYER touches the file system. -/
theorem C3_callback_output_by_state (hdr : Header) (hd : hdr.callStatesDistinct) (opens : Bool)
    (result : RKLLMResult) (userdata : Option Nat) (state : Int) :
    (state = hdr.RKLLM_RUN_FINISH →
      callback hdr opens result userdata state = [.stdout "\n"]) ∧
    (state = hdr.RKLLM_RUN_ERROR →
      callback hdr opens result userdata state =
        [.stdout (String.singleton (Char.ofNat 92) ++ "run error" ++
          String.singleton (Char.ofNat 10))]) ∧
    (state = hdr.RKLLM_RUN_NORMAL →
      callback hdr opens result userdata state = [.stdout result.text]) ∧
    (state ≠ hdr.RKLLM_RUN_FINISH → state ≠ hdr.RKLLM_RUN_ERROR →
      state ≠ hdr.RKLLM_RUN_GET_LAST_HIDDEN_LAYER → state ≠ hdr.RKLLM_RUN_NORMAL →
      callback hdr opens result userdata state = []) ∧
    (state ≠ hdr.RKLLM_RUN_GET_LAST_HIDDEN_LAYER →
      (callback hdr opens result userdata state).filter Event.isFileOp = []) := by
  obtain ⟨h1, h2, h3, h4, h5, h6⟩ := hd
  have hs : String.singleton (Char.ofNat 92) ++ "run error" ++ String.singleton (Char.ofNat 10)
      = "\\run error\n" := by decide
  refine ⟨?_, ?_, ?_, ?_, ?_⟩
  · intro h
    simp [callback, h]
  · intro h
    rw [hs]
    simp [callback, h, Ne.symm h1]
  · intro h
    simp [callback, h, Ne.symm h3, Ne.symm h5, Ne.symm h6]
  · intro a b c d
    simp [callback, a, b, c, d]
  · intro h
    unfold callback
    split_ifs <;> simp_all [Event.isFileOp]

theorem C3_callback_output_by_state_witness :
    hdrW.callStatesDistinct ∧
    callback hdrW true ⟨"abc", ⟨0, 8, 2⟩⟩ none 3 =
      [.stdout (String.singleton (Char.ofNat 92) ++ "run error" ++
        String.singleton (Char.ofNat 10))] ∧
    callback hdrW true ⟨"abc", ⟨0, 8, 2⟩⟩ none 0 = [.stdout "abc"] ∧
    callback hdrW true ⟨"abc", ⟨0, 8, 2⟩⟩ none 1 = [] :=
  ⟨by decide,
    (C3_callback_output_by_state hdrW (by decide) true ⟨"abc", ⟨0, 8, 2⟩⟩ none 3).2.1 rfl,
    (C3_callback_output_by_state hdrW (by decide) true ⟨"abc", ⟨0, 8, 2⟩⟩ none 0).2.2.1 rfl,
    (C3_callback_output_by_state hdrW (by decide) true ⟨"abc", ⟨0, 8, 2⟩⟩ none 1).2.2.2.1
      (by decide) (by decide) (by decide) (by decide)⟩

/-- C4: with `argc >= 4`, `main` calls `rkllm_init` once, with the default
record in which exactly these members are overwritten: `model_path = argv[1]`,
`top_k = 1`, `top_p = 0.95`, `temperature = 0.8`, `repeat_penalty = 1.1`,
`frequency_penalty = 0.0`, `presence_penalty = 0.0`,
`max_new_tokens = atoi(argv[2])`, `max_context_len = atoi(argv[3])`,
`skip_special_token = true`, `extend_param.base_domain_id = 0`; all other members
keep their default value.  A numeric argument that does not start with a decimal
integer gives 0, and `rkllm_init` is called all the same. -/
theorem C4_init_parameter_record (hdr : Header) (lib : Library) (argv stdin : List String)
    (fuel : Nat) (hargs : 4 ≤ argv.length) :
    (main hdr lib argv stdin fuel).2.filter Event.isInit =
      [.rkllm_init
        { model_path := argv.getD 1 ""
          max_context_len := atoi (argv.getD 3 "")
          max_new_tokens := atoi (argv.getD 2 "")
          top_k := 1
          top_p := ⟨95, 2⟩
          temperature := ⟨8, 1⟩
          repeat_penalty := ⟨11, 1⟩
          frequency_penalty := ⟨0, 1⟩
          presence_penalty := ⟨0, 1⟩
          skip_special_token := true
          extend_param :=
            { base_domain_id := 0
              others := lib.rkllm_createDefaultParam.extend_param.others }
          others := lib.rkllm_createDefaultParam.others }] ∧
    (hasLeadingInteger (argv.getD 2 "") = false →
      (buildParam lib argv).max_new_tokens = 0 ∧
      (main hdr lib argv stdin fuel).2.filter Event.isInit =
        [.rkllm_init (buildParam lib argv)]) ∧
    (hasLeadingInteger (argv.getD 3 "") = false →
      (buildParam lib argv).max_context_len = 0 ∧
      (main hdr lib argv stdin fuel).2.filter Event.isInit =
        [.rkllm_init (buildParam lib argv)]) := by
  have hcalls := main_init_calls hdr lib argv stdin fuel hargs
  refine ⟨hcalls, ?_, ?_⟩
  · intro h
    exact ⟨atoi_of_no_leading_integer _ h, hcalls⟩
  · intro h
    exact ⟨atoi_of_no_leading_integer _ h, hcalls⟩

theorem C4_init_parameter_record_witness :
    4 ≤ (["llm_demo", "model.rkllm", "abc", " -x"] : List String).length ∧
    (main hdrW libOk ["llm_demo", "model.rkllm", "abc", " -x"] ["exit"] 1).2.filter
        Event.isInit =
      [.rkllm_init
        { model_path := "model.rkllm", max_context_len := 0, max_new_tokens := 0, top_k := 1,
          top_p := ⟨95, 2⟩, temperature := ⟨8, 1⟩, repeat_penalty := ⟨11, 1⟩,
          frequency_penalty := ⟨0, 1⟩, presence_penalty := ⟨0, 1⟩, skip_special_token := true,
          extend_param := { base_domain_id := 0, others := 3 }, others := 5 }] :=
  ⟨by decide,
    (C4_init_parameter_record hdrW libOk ["llm_demo", "model.rkllm", "abc", " -x"] ["exit"] 1
      (by decide)).1.trans (by decide)⟩

/-- C5 (amended): the i-th call of `rkllm_run` made by `main` is for the i-th line
read, which is not `exit`; its input type is `RKLLM_INPUT_PROMPT`, its inference
mode is `RKLLM_INFER_GENERATE` with every other inference parameter zero or
null, its `userdata` is null, and its prompt is the C string of the text made of
prefix, question after preset substitution, postfix, which always starts with
the prefix.  When the line holds no NUL character the prompt is exactly that
concatenation: it ends with the postfix and its length (in characters and in
bytes) is the sum of the three lengths, also for the empty line. -/
theorem C5_run_call_arguments (hdr : Header) (lib : Library) (argv stdin : List String)
    (fuel i : Nat) (hi : i < ((main hdr lib argv stdin fuel).2.filter Event.isRun).length) :
    stdin.getD i "" ≠ "exit" ∧
    ((main hdr lib argv stdin fuel).2.filter Event.isRun)[i]? =
      some (.rkllm_run (lib.rkllm_init (buildParam lib argv)).2
        { input_type := hdr.RKLLM_INPUT_PROMPT
          prompt_input :=
            c_str (PROMPT_TEXT_PREFIX ++ (presetSubst (stdin.getD i "")).1 ++
              PROMPT_TEXT_POSTFIX) }
        { mode := hdr.RKLLM_INFER_GENERATE, lora_params := none, prompt_cache_params := none,
          others := 0 }
        none) ∧
    PROMPT_TEXT_PREFIX.data <+:
      (c_str (PROMPT_TEXT_PREFIX ++ (presetSubst (stdin.getD i "")).1 ++
        PROMPT_TEXT_POSTFIX)).data ∧
    (Char.ofNat 0 ∉ (stdin.getD i "").data →
      c_str (PROMPT_TEXT_PREFIX ++ (presetSubst (stdin.getD i "")).1 ++ PROMPT_TEXT_POSTFIX) =
        PROMPT_TEXT_PREFIX ++ (presetSubst (stdin.getD i "")).1 ++ PROMPT_TEXT_POSTFIX ∧
      PROMPT_TEXT_POSTFIX.data <:+
        (c_str (PROMPT_TEXT_PREFIX ++ (presetSubst (stdin.getD i "")).1 ++
          PROMPT_TEXT_POSTFIX)).data ∧
      (c_str (PROMPT_TEXT_PREFIX ++ (presetSubst (stdin.getD i "")).1 ++
          PROMPT_TEXT_POSTFIX)).length =
        PROMPT_TEXT_PREFIX.length + (presetSubst (stdin.getD i "")).1.length +
          PROMPT_TEXT_POSTFIX.length ∧
      (c_str (PROMPT_TEXT_PREFIX ++ (presetSubst (stdin.getD i "")).1 ++
          PROMPT_TEXT_POSTFIX)).utf8ByteSize =
        PROMPT_TEXT_PREFIX.utf8ByteSize + (presetSubst (stdin.getD i "")).1.utf8ByteSize +
          PROMPT_TEXT_POSTFIX.utf8ByteSize) := by
  rw [main_runs] at hi ⊢
  by_cases hc : 4 ≤ argv.length ∧ (lib.rkllm_init (buildParam lib argv)).1 = 0
  · rw [if_pos hc] at hi ⊢
    obtain ⟨a, b⟩ := readLoop_runs_get hdr _ fuel stdin i hi
    refine ⟨a, b, c_str_prompt_prefix _, ?_⟩
    intro hnul
    have hq := presetSubst_no_nul _ hnul
    have hc := c_str_of_no_nul _ (prompt_no_nul _ hq)
    obtain ⟨_, s2, s3, s4⟩ := prompt_shape (presetSubst (stdin.getD i "")).1
    rw [hc]
    exact ⟨rfl, s2, s3, s4⟩
  · rw [if_neg hc] at hi
    simp at hi

theorem C5_run_call_arguments_witness :
    1 < ((main hdrW libOk argvW ["1", "", "exit"] 5).2.filter Event.isRun).length ∧
    Char.ofNat 0 ∉ ((["1", "", "exit"] : List String).getD 1 "").data ∧
    (["1", "", "exit"] : List String).getD 1 "" ≠ "exit" ∧
    ((main hdrW libOk argvW ["1", "", "exit"] 5).2.filter Event.isRun)[1]? =
      some (.rkllm_run (libOk.rkllm_init (buildParam libOk argvW)).2
        { input_type := hdrW.RKLLM_INPUT_PROMPT
          prompt_input :=
            c_str (PROMPT_TEXT_PREFIX ++
              (presetSubst ((["1", "", "exit"] : List String).getD 1 "")).1 ++
              PROMPT_TEXT_POSTFIX) }
        { mode := hdrW.RKLLM_INFER_GENERATE, lora_params := none, prompt_cache_params := none,
          others := 0 }
        none) ∧
    c_str (PROMPT_TEXT_PREFIX ++
        (presetSubst ((["1", "", "exit"] : List String).getD 1 "")).1 ++ PROMPT_TEXT_POSTFIX) =
      PROMPT_TEXT_PREFIX ++
        (presetSubst ((["1", "", "exit"] : List String).getD 1 "")).1 ++ PROMPT_TEXT_POSTFIX :=
  ⟨by decide, by decide,
    (C5_run_call_arguments hdrW libOk argvW ["1", "", "exit"] 5 1 (by decide)).1,
    (C5_run_call_arguments hdrW libOk argvW ["1", "", "exit"] 5 1 (by decide)).2.1,
    ((C5_run_call_arguments hdrW libOk argvW ["1", "", "exit"] 5 1 (by decide)).2.2.2
      (by decide)).1⟩

theorem C5_prompt_cut_at_nul_counterexample :
    "a" ++ String.singleton (Char.ofNat 0) ++ "b" ≠ "exit" ∧
    ((main hdrW libOk argvW ["a" ++ String.singleton (Char.ofNat 0) ++ "b", "exit"] 2).2.filter
        Event.isRun)[0]? =
      some (.rkllm_run (some 1)
        { input_type := 0, prompt_input := PROMPT_TEXT_PREFIX ++ "a" }
        { mode := 0, lora_params := none, prompt_cache_params := none, others := 0 }
        none) ∧
    PROMPT_TEXT_PREFIX ++ "a" ≠
      PROMPT_TEXT_PREFIX ++
        (presetSubst ("a" ++ String.singleton (Char.ofNat 0) ++ "b")).1 ++
        PROMPT_TEXT_POSTFIX ∧
    ¬ (PROMPT_TEXT_POSTFIX.data <:+ (PROMPT_TEXT_PREFIX ++ "a").data) ∧
    (PROMPT_TEXT_PREFIX ++ "a").utf8ByteSize = 42 ∧
    PROMPT_TEXT_PREFIX.utf8ByteSize +
        (presetSubst ("a" ++ String.singleton (Char.ofNat 0) ++ "b")).1.utf8ByteSize +
        PROMPT_TEXT_POSTFIX.utf8ByteSize = 61 := by
  refine ⟨by decide, by decide, by decide, by decide, by decide, by decide⟩

/-- C6: preset substitution.  A line that is the decimal string of an index `i`
of the preset list is replaced by preset question `i`, echoed once and not
replaced again; every other line is forwarded unchanged with no echo.  The
indices are 0 and 1, so `2`, `00`, `01`, `+1`, ` 0` and `0 ` are unchanged. -/
theorem C6_preset_substitution (s : String) :
    (∀ i : Nat, i < pre_input.length → s = toString i →
      presetSubst s = (pre_input.getD i "", [.stdout (pre_input.getD i "" ++ "\n")])) ∧
    ((∀ i : Nat, i < pre_input.length → s ≠ toString i) → presetSubst s = (s, [])) ∧
    (s = "0" → (presetSubst s).1 = "Write a poem about snow") ∧
    (s = "1" → (presetSubst s).1 = "Each boy plants 3 trees, and each girl plants 2 trees. The total number of people is 12, and the total number of trees is 32. Find the number of men and women.") ∧
    (s ≠ "0" → s ≠ "1" → presetSubst s = (s, [])) ∧
    (presetSubst "2").1 = "2" ∧ (presetSubst "00").1 = "00" ∧ (presetSubst "01").1 = "01" ∧
    (presetSubst "+1").1 = "+1" ∧ (presetSubst " 0").1 = " 0" ∧ (presetSubst "0 ").1 = "0 " := by
  have t0 : toString (0 : Nat) = "0" := by decide
  have t1 : toString (1 : Nat) = "1" := by decide
  have hlen : pre_input.length = 2 := rfl
  refine ⟨?_, ?_, ?_, ?_, ?_, ?_, ?_, ?_, ?_, ?_, ?_⟩
  · intro i hi hs
    rw [hlen] at hi
    rw [presetSubst_eq]
    interval_cases i
    · rw [t0] at hs
      rw [if_pos hs]
    · rw [t1] at hs
      subst hs
      simp
  · intro h
    have h0 : s ≠ "0" := by simpa [t0] using h 0 (by decide)
    have h1 : s ≠ "1" := by simpa [t1] using h 1 (by decide)
    rw [presetSubst_eq, if_neg h0, if_neg h1]
  · intro h
    rw [presetSubst_eq, if_pos h]
    rfl
  · intro h
    subst h
    rw [presetSubst_eq]
    simp [pre_input]
  · intro h0 h1
    rw [presetSubst_eq, if_neg h0, if_neg h1]
  all_goals (rw [presetSubst_eq]; simp)

theorem C6_preset_substitution_witness :
    (1 : Nat) < pre_input.length ∧ "1" = toString (1 : Nat) ∧
    presetSubst "1" = (pre_input.getD 1 "", [.stdout (pre_input.getD 1 "" ++ "\n")]) ∧
    presetSubst "hello" = ("hello", []) :=
  ⟨by decide, by decide,
    (C6_preset_substitution "1").1 1 (by decide) (by decide),
    (C6_preset_substitution "hello").2.2.2.2.1 (by decide) (by decide)⟩

/-- C8: when `rkllm_init` returns a non-zero status then, whatever the input
and the number of iterations allowed, `main` prints `rkllm init failed`, runs
`exit_handler(-1)` and the process exits with argument -1; no `rkllm_run` is
called and the loop is not entered; `rkllm_destroy` is called (once, on the
handle) exactly when `rkllm_init` left the handle non-null.  Conversely every
call of `rkllm_run` comes after the `rkllm_init` call, which returned 0. -/
theorem C8_init_failure_path (hdr : Header) (lib : Library) (argv stdin : List String)
    (fuel : Nat) :
    (4 ≤ argv.length → (lib.rkllm_init (buildParam lib argv)).1 ≠ 0 →
      main hdr lib argv stdin fuel =
        (.exited (-1),
          [.signal hdr.SIGINT, .stdout "rkllm init start\n", .rkllm_createDefaultParam,
            .rkllm_init (buildParam lib argv), .stdout "rkllm init failed\n"] ++
          (match (lib.rkllm_init (buildParam lib argv)).2 with
            | some v => [.stdout "Exiting program...\n", .rkllm_destroy (some v)]
            | none => []) ++
          [.exit (-1)]) ∧
      (main hdr lib argv stdin fuel).2.filter Event.isRun = [] ∧
      ((main hdr lib argv stdin fuel).2.filter Event.isDestroy =
        if (lib.rkllm_init (buildParam lib argv)).2 = none then []
        else [.rkllm_destroy (lib.rkllm_init (buildParam lib argv)).2])) ∧
    (∀ (i : Nat) (e : Event), (main hdr lib argv stdin fuel).2[i]? = some e → e.isRun = true →
      (lib.rkllm_init (buildParam lib argv)).1 = 0 ∧
      (main hdr lib argv stdin fuel).2[3]? = some (.rkllm_init (buildParam lib argv)) ∧
      3 < i) := by
  constructor
  · intro hargs hinit
    have hm : main hdr lib argv stdin fuel =
        (.exited (-1),
          [.signal hdr.SIGINT, .stdout "rkllm init start\n", .rkllm_createDefaultParam,
            .rkllm_init (buildParam lib argv), .stdout "rkllm init failed\n"] ++
          (match (lib.rkllm_init (buildParam lib argv)).2 with
            | some v => [.stdout "Exiting program...\n", .rkllm_destroy (some v)]
            | none => []) ++
          [.exit (-1)]) := by
      rw [main_of_init_failed hdr lib argv stdin fuel hargs hinit,
        (exit_handler_events _ _).1, (exit_handler_events _ _).2]
      simp only [List.append_assoc, List.cons_append, List.nil_append]
    refine ⟨hm, ?_, ?_⟩
    · rw [main_runs, if_neg (fun h => hinit h.2)]
    · rw [hm]
      cases (lib.rkllm_init (buildParam lib argv)).2 <;> simp [Event.isDestroy]
  · intro i e hget hrun
    have hmem : e ∈ (main hdr lib argv stdin fuel).2.filter Event.isRun :=
      List.mem_filter.mpr ⟨List.getElem?_mem hget, hrun⟩
    rw [main_runs] at hmem
    by_cases hc : 4 ≤ argv.length ∧ (lib.rkllm_init (buildParam lib argv)).1 = 0
    · obtain ⟨rest, hrest, _⟩ := main_events_of_init_ok hdr lib argv stdin fuel hc.1 hc.2
      refine ⟨hc.2, by rw [hrest]; simp, ?_⟩
      by_contra hle
      have hi : i ≤ 3 := by omega
      rw [hrest] at hget
      interval_cases i <;> simp at hget <;> rw [← hget] at hrun <;> simp [Event.isRun] at hrun
    · rw [if_neg hc] at hmem
      simp at hmem

theorem C8_init_failure_path_witness :
    4 ≤ argvW.length ∧ (libFail.rkllm_init (buildParam libFail argvW)).1 ≠ 0 ∧
    main hdrW libFail argvW ["0", "exit"] 7 =
      (.exited (-1),
        [.signal 2, .stdout "rkllm init start\n", .rkllm_createDefaultParam,
          .rkllm_init (buildParam libFail argvW), .stdout "rkllm init failed\n",
          .stdout "Exiting program...\n", .rkllm_destroy (some 1), .exit (-1)]) ∧
    (main hdrW libFailNull argvW ["0", "exit"] 7).2.filter Event.isDestroy = [] :=
  ⟨by decide, by decide,
    ((C8_init_failure_path hdrW libFail argvW ["0", "exit"] 7).1 (by decide) (by decide)).1,
    ((C8_init_failure_path hdrW libFailNull argvW ["0", "exit"] 7).1
      (by decide) (by decide)).2.2⟩

/-- C9: `exit_handler` calls `rkllm_destroy` zero times when the global handle
is null, and exactly once, with the handle value, when it is not; at the moment
of that call the global handle is already null, so an `exit_handler` started
then, or after the first one, calls `rkllm_destroy` zero times.  Its last action
is `exit` with the signal number it was given. -/
theorem C9_exit_handler_destroys_once (signal signal2 : Int) (g : Option Nat) :
    (g = none → (exit_handler signal g).steps.filter Step.isDestroy = []) ∧
    (∀ v, g = some v →
      (exit_handler signal g).steps.filter Step.isDestroy =
        [⟨.rkllm_destroy (some v), none⟩]) ∧
    (∀ s ∈ (exit_handler signal g).steps, s.isDestroy = true →
      s.llmHandle = none ∧
      (exit_handler signal2 s.llmHandle).steps.filter Step.isDestroy = []) ∧
    (exit_handler signal2 (exit_handler signal g).llmHandle).steps.filter Step.isDestroy = [] ∧
    (exit_handler signal g).steps.getLast? = some ⟨.exit signal, none⟩ ∧
    (exit_handler signal g).code = signal := by
  cases g with
  | none =>
    refine ⟨fun _ => rfl, fun v h => (by cases h), ?_, rfl, rfl, rfl⟩
    intro s hs hd
    simp only [exit_handler, List.mem_singleton] at hs
    rw [hs] at hd
    simp [Step.isDestroy, Event.isDestroy] at hd
  | some w =>
    refine ⟨fun h => (by cases h), ?_, ?_, rfl, rfl, rfl⟩
    · intro v h
      cases h
      rfl
    · intro s hs hd
      simp only [exit_handler, List.mem_cons, List.mem_singleton, List.not_mem_nil,
        or_false] at hs
      rcases hs with hs | hs | hs
      · rw [hs] at hd
        simp [Step.isDestroy, Event.isDestroy] at hd
      · rw [hs]
        exact ⟨rfl, rfl⟩
      · rw [hs] at hd
        simp [Step.isDestroy, Event.isDestroy] at hd

theorem C9_exit_handler_destroys_once_witness :
    (exit_handler 2 (some 5)).steps.filter Step.isDestroy = [⟨.rkllm_destroy (some 5), none⟩] ∧
    (exit_handler 2 none).steps.filter Step.isDestroy = [] ∧
    (exit_handler 15 (exit_handler 2 (some 5)).llmHandle).steps.filter Step.isDestroy = [] :=
  ⟨(C9_exit_handler_destroys_once 2 15 (some 5)).2.1 5 rfl,
    (C9_exit_handler_destroys_once 2 15 none).1 rfl,
    (C9_exit_handler_destroys_once 2 15 (some 5)).2.2.2.1⟩

/-- C10: when `rkllm_init` succeeded and no input line equals `exit` (empty
input, `exit ` with a trailing blank, `Exit`, `exit` followed by a carriage
return, ...), `main` is still inside the loop after any number of iterations and
no `rkllm_destroy` has been called; after `fuel` iterations it has made `fuel`
calls of `rkllm_run`, the i-th for the i-th line read; every call past the end
of the input has the prompt prefix directly followed by the postfix; hence for
every `n` more than `n` calls of `rkllm_run` are made. -/
theorem C10_loop_without_exit_line (hdr : Header) (lib : Library) (argv stdin : List String)
    (hargs : 4 ≤ argv.length) (hinit : (lib.rkllm_init (buildParam lib argv)).1 = 0)
    (hno : "exit" ∉ stdin) :
    (∀ fuel : Nat,
      (main hdr lib argv stdin fuel).1 = .running ∧
      (∀ e ∈ (main hdr lib argv stdin fuel).2, e.isDestroy = false) ∧
      (main hdr lib argv stdin fuel).2.filter Event.isRun =
        (List.range fuel).map
          (fun i => runCall hdr (lib.rkllm_init (buildParam lib argv)).2 (stdin.getD i "")) ∧
      (∀ i : Nat, stdin.length ≤ i → i < fuel →
        ((main hdr lib argv stdin fuel).2.filter Event.isRun)[i]? =
          some (.rkllm_run (lib.rkllm_init (buildParam lib argv)).2
            { input_type := hdr.RKLLM_INPUT_PROMPT
              prompt_input := PROMPT_TEXT_PREFIX ++ PROMPT_TEXT_POSTFIX }
            { mode := hdr.RKLLM_INFER_GENERATE, lora_params := none,
              prompt_cache_params := none, others := 0 }
            none))) ∧
    (∀ n : Nat, ∃ fuel : Nat, n < ((main hdr lib argv stdin fuel).2.filter Event.isRun).length) := by
  have hruns : ∀ fuel : Nat, (main hdr lib argv stdin fuel).2.filter Event.isRun =
        (List.range fuel).map
          (fun i => runCall hdr (lib.rkllm_init (buildParam lib argv)).2 (stdin.getD i "")) := by
    intro fuel
    rw [main_runs, if_pos ⟨hargs, hinit⟩]
    exact (readLoop_calls_no_exit hdr _ Event.isRun (fun _ => rfl) (fun _ _ _ _ => rfl)
      fuel stdin hno).2
  have hflag : ∀ fuel : Nat,
      (readLoop hdr (lib.rkllm_init (buildParam lib argv)).2 fuel stdin).1 = false := fun fuel =>
    (readLoop_calls_no_exit hdr _ Event.isRun (fun _ => rfl) (fun _ _ _ _ => rfl)
      fuel stdin hno).1
  refine ⟨fun fuel => ⟨?_, ?_, hruns fuel, ?_⟩, fun n => ⟨n + 1, ?_⟩⟩
  · rw [main_of_init_ok hdr lib argv stdin fuel hargs hinit, hflag fuel]
    rfl
  · obtain ⟨rest, hrest, hall⟩ := main_events_of_init_ok hdr lib argv stdin fuel hargs hinit
    intro e he
    rw [hrest] at he
    rcases List.mem_append.mp he with he | he
    · simp only [List.mem_cons, List.mem_singleton, List.not_mem_nil, or_false] at he
      rcases he with he | he | he | he <;> rw [he] <;> rfl
    · rcases hall e he with ⟨t, ht⟩ | h1 | ⟨h1, _⟩
      · rw [ht]; rfl
      · cases e <;> simp_all [Event.isRun, Event.isDestroy]
      · rw [hflag fuel] at h1
        exact absurd h1 (by decide)
  · intro i hlen hi
    rw [hruns fuel]
    have hget : stdin.getD i "" = "" := by
      simp [List.getD_eq_getElem?_getD, List.getElem?_eq_none hlen]
    have hrun : runCall hdr (lib.rkllm_init (buildParam lib argv)).2 (stdin.getD i "") =
        .rkllm_run (lib.rkllm_init (buildParam lib argv)).2
            { input_type := hdr.RKLLM_INPUT_PROMPT
              prompt_input := PROMPT_TEXT_PREFIX ++ PROMPT_TEXT_POSTFIX }
            { mode := hdr.RKLLM_INFER_GENERATE, lora_params := none,
              prompt_cache_params := none, others := 0 }
            none := by
      rw [hget, runCall, presetSubst_empty, String.append_empty, c_str_prefix_postfix]
    rw [← hrun]
    simp [hi]
  · rw [hruns (n + 1)]
    simp

theorem C10_loop_without_exit_line_witness :
    4 ≤ argvW.length ∧ (libOk.rkllm_init (buildParam libOk argvW)).1 = 0 ∧
    "exit" ∉ ["exit ", "Exit", "exit\r"] ∧
    (main hdrW libOk argvW ["exit ", "Exit", "exit\r"] 5).1 = .running ∧
    ((main hdrW libOk argvW ["exit ", "Exit", "exit\r"] 5).2.filter Event.isRun).length = 5 :=
  ⟨by decide, by decide, by decide,
    ((C10_loop_without_exit_line hdrW libOk argvW ["exit ", "Exit", "exit\r"]
      (by decide) (by decide) (by decide)).1 5).1,
    by
      rw [((C10_loop_without_exit_line hdrW libOk argvW ["exit ", "Exit", "exit\r"]
        (by decide) (by decide) (by decide)).1 5).2.2.1]
      simp⟩

end LlmDemo
